import Mathlib

/-!
Shallow embedding of `src/input.cpp`.

The program declares two globals (`globalVar`, `globalFlag`), two helper
functions (`add`, `sub`) and a `main` routine consisting of straight-line
arithmetic, one conditional and one while loop, returning the final value
of the local `a` as the process exit status.

C++ `int` values are modelled as `Int`; every value arising in this
program lies far inside the 32-bit signed range, so no overflow occurs and
the ideal-integer embedding coincides with the machine semantics on every
evaluation the program performs.  The C++ `%` operator on `int` is
truncating remainder, which is `Int.tmod` in Lean.
-/

namespace Input

/-- Global variable `int globalVar = 42;` (source line 2). -/
def globalVarInit : Int := 42

/-- Global variable `bool globalFlag = false;` (source line 3). -/
def globalFlagInit : Bool := false

/-- The process-wide mutable state of the program: its two globals. -/
structure GlobalState where
  globalVar : Int
  globalFlag : Bool
deriving DecidableEq, Repr

/-- The globals as initialized at program start. -/
def initialGlobals : GlobalState :=
  { globalVar := globalVarInit, globalFlag := globalFlagInit }

/-- Helper `int add(int x, int y) { return x + y; }` (source lines 6-8). -/
def add (x y : Int) : Int := x + y

/-- Helper `int sub(int x, int y) { return x - y; }` (source lines 10-12). -/
def sub (x y : Int) : Int := x - y

/-- Local `int a = 5;` (source line 17). -/
def a : Int := 5

/-- Local `int b = 10;` (source line 18). -/
def b : Int := 10

/-- Local `bool flag = true;` (source line 19). -/
def flag : Bool := true

/-- Local `int c = add(a, b);` (source line 22). -/
def c : Int := add a b

/-- Local `int d = sub(a, b);` (source line 23). -/
def d : Int := sub a b

/-- Local `int e = a % b;` (source line 24): C++ truncating remainder. -/
def e : Int := Int.tmod a b

/-- The condition of the `if` on source line 27: `flag && (c > 10)`. -/
def ifCond : Bool := flag && decide (c > 10)

/-- Value of `a` after the conditional on source lines 27-31:
the true-branch sets `a = a + 1`, the else-branch sets `a = a - 1`. -/
def aAfterIf : Int := if ifCond then a + 1 else a - 1

/-- The while loop on source lines 34-36: while `a < c`, set `a = a + 2`;
returns the final value of `a`.  Terminates because `a` strictly
increases while `c` stays fixed. -/
def whileLoop (c a : Int) : Int :=
  if a < c then whileLoop c (a + 2) else a
termination_by (c - a).toNat
decreasing_by
  simp_wf
  omega

/-- Number of times the body of the while loop executes. -/
def whileLoopCount (c a : Int) : Nat :=
  if a < c then whileLoopCount c (a + 2) + 1 else 0
termination_by (c - a).toNat
decreasing_by
  simp_wf
  omega

/-- The successive values taken by `a` during the while loop, from the
entry value through the exit value. -/
def whileLoopTrace (c a : Int) : List Int :=
  if a < c then a :: whileLoopTrace c (a + 2) else [a]
termination_by (c - a).toNat
decreasing_by
  simp_wf
  omega

/-- Value of `a` after the while loop (source lines 34-36). -/
def aAfterLoop : Int := whileLoop c aAfterIf

/-- The entry routine `main` (source lines 14-41), as a function of the
global state.  The body mentions neither global, so the state passes
through unchanged; the returned `Int` is the value of `return a;`. -/
def mainRun (g : GlobalState) : GlobalState × Int :=
  (g, aAfterLoop)

/-- The program's exit status: the value `main` returns, starting from the
initialized globals (the program takes no input). -/
def exitStatus : Int := (mainRun initialGlobals).2

/-- Unfolding lemma: when the guard holds, the loop body runs once. -/
theorem whileLoop_step (c a : Int) (h : a < c) :
    whileLoop c a = whileLoop c (a + 2) := by
  rw [whileLoop]
  simp [h]

/-- Unfolding lemma: when the guard fails, the loop exits with `a`. -/
theorem whileLoop_done (c a : Int) (h : ¬ a < c) : whileLoop c a = a := by
  rw [whileLoop]
  simp [h]

/-- Unfolding lemma: when the guard holds, the count increments. -/
theorem whileLoopCount_step (c a : Int) (h : a < c) :
    whileLoopCount c a = whileLoopCount c (a + 2) + 1 := by
  rw [whileLoopCount]
  simp [h]

/-- Unfolding lemma: when the guard fails, the body never runs. -/
theorem whileLoopCount_done (c a : Int) (h : ¬ a < c) :
    whileLoopCount c a = 0 := by
  rw [whileLoopCount]
  simp [h]

/-- Unfolding lemma: when the guard holds, the entry value heads the trace. -/
theorem whileLoopTrace_step (c a : Int) (h : a < c) :
    whileLoopTrace c a = a :: whileLoopTrace c (a + 2) := by
  rw [whileLoopTrace]
  simp [h]

/-- Unfolding lemma: when the guard fails, the trace is the exit value. -/
theorem whileLoopTrace_done (c a : Int) (h : ¬ a < c) :
    whileLoopTrace c a = [a] := by
  rw [whileLoopTrace]
  simp [h]

/-- Evaluation of `c`: `add(5, 10) = 15`. -/
theorem c_eq : c = 15 := by decide

/-- Evaluation of the conditional: the true-branch leaves `a = 6`. -/
theorem aAfterIf_eq : aAfterIf = 6 := by decide

/-- Evaluation of the loop started at `a = 6` with bound `15`. -/
theorem whileLoop_15_6 : whileLoop 15 6 = 16 := by
  rw [whileLoop_step 15 6 (by norm_num)]
  norm_num
  rw [whileLoop_step 15 8 (by norm_num)]
  norm_num
  rw [whileLoop_step 15 10 (by norm_num)]
  norm_num
  rw [whileLoop_step 15 12 (by norm_num)]
  norm_num
  rw [whileLoop_step 15 14 (by norm_num)]
  norm_num
  rw [whileLoop_done 15 16 (by norm_num)]

/-- The loop body started at `a = 6` with bound `15` runs 5 times. -/
theorem whileLoopCount_15_6 : whileLoopCount 15 6 = 5 := by
  rw [whileLoopCount_step 15 6 (by norm_num)]
  norm_num
  rw [whileLoopCount_step 15 8 (by norm_num)]
  norm_num
  rw [whileLoopCount_step 15 10 (by norm_num)]
  norm_num
  rw [whileLoopCount_step 15 12 (by norm_num)]
  norm_num
  rw [whileLoopCount_step 15 14 (by norm_num)]
  norm_num
  rw [whileLoopCount_done 15 16 (by norm_num)]

/-- The values `a` takes during the loop started at `a = 6`, bound `15`. -/
theorem whileLoopTrace_15_6 :
    whileLoopTrace 15 6 = [6, 8, 10, 12, 14, 16] := by
  rw [whileLoopTrace_step 15 6 (by norm_num)]
  norm_num
  rw [whileLoopTrace_step 15 8 (by norm_num)]
  norm_num
  rw [whileLoopTrace_step 15 10 (by norm_num)]
  norm_num
  rw [whileLoopTrace_step 15 12 (by norm_num)]
  norm_num
  rw [whileLoopTrace_step 15 14 (by norm_num)]
  norm_num
  rw [whileLoopTrace_done 15 16 (by norm_num)]

/-- Evaluation of `a` after the loop: the routine's return value. -/
theorem aAfterLoop_eq : aAfterLoop = 16 := by
  rw [aAfterLoop, c_eq, aAfterIf_eq, whileLoop_15_6]

/-- C1: with no external input, `main` returns 16 from every global state,
and this value is the program's exit status. -/
theorem mainRun_returns_16 (g : GlobalState) :
    (mainRun g).2 = 16 ∧ exitStatus = 16 := by
  refine ⟨?_, ?_⟩ <;>
    simp [mainRun, exitStatus, aAfterLoop_eq]

/-- C2: the while loop, entered with `a = 6` and `c = 15` and stepping by
+2, terminates with the finite value trace 6, 8, 10, 12, 14, 16; the body
runs exactly 5 times; the guard `a < 15` holds through `a = 14` and fails
at `a = 16`; and `a = 16` on exit. -/
theorem whileLoop_behaviour :
    aAfterIf = 6 ∧ c = 15 ∧
    whileLoopTrace c aAfterIf = [6, 8, 10, 12, 14, 16] ∧
    whileLoopCount c aAfterIf = 5 ∧
    ((6 : Int) < c ∧ (8 : Int) < c ∧ (10 : Int) < c ∧
      (12 : Int) < c ∧ (14 : Int) < c) ∧
    ¬ (16 : Int) < c ∧
    whileLoop c aAfterIf = 16 := by
  rw [c_eq, aAfterIf_eq, whileLoopTrace_15_6, whileLoopCount_15_6,
    whileLoop_15_6]
  norm_num

/-- C3: in the conditional, both operands of the logical AND are true
(`flag = true` and `c = 15 > 10`), so the true-branch `a = a + 1` runs and
`a` equals 6 immediately after the conditional. -/
theorem conditional_true_branch :
    flag = true ∧ c > 10 ∧ ifCond = true ∧
    aAfterIf = a + 1 ∧ aAfterIf = 6 := by
  refine ⟨rfl, by decide, by decide, by decide, aAfterIf_eq⟩

/-- C4: with the literal locals `a = 5` and `b = 10`, `main` computes
`c = add(a, b) = 15` and `d = sub(a, b) = -5`. -/
theorem c_and_d_values :
    c = add a b ∧ c = 15 ∧ d = sub a b ∧ d = -5 := by
  refine ⟨rfl, c_eq, rfl, by decide⟩

/-- C5: `e = a % b` is the remainder of truncating division, here
`5 % 10 = 5`, whose sign follows the dividend. -/
theorem e_value :
    e = Int.tmod a b ∧ e = 5 ∧
    e = a - b * Int.tdiv a b ∧ e.sign = a.sign := by
  refine ⟨rfl, by decide, by decide, by decide⟩

/-- C6: for all 32-bit-representable integers `x` and `y`, the total
functions `add` and `sub` satisfy `add(x, y) - sub(x, y) = 2 * y` and
`sub(add(x, y), y) = x`. -/
theorem add_sub_roundtrip (x y : Int)
    (_hx₁ : -(2 ^ 31) ≤ x) (_hx₂ : x < 2 ^ 31)
    (_hy₁ : -(2 ^ 31) ≤ y) (_hy₂ : y < 2 ^ 31) :
    add x y - sub x y = 2 * y ∧ sub (add x y) y = x := by
  unfold add sub
  constructor <;> ring

/-- Witness for C6 at the program's own operands `x = 5`, `y = 10`. -/
theorem add_sub_roundtrip_witness :
    add 5 10 - sub 5 10 = 2 * 10 ∧ sub (add 5 10) 10 = 5 :=
  add_sub_roundtrip 5 10 (by norm_num) (by norm_num) (by norm_num)
    (by norm_num)

/-- C7: `main` leaves the global state unchanged, so `globalVar` keeps its
initial value 42 and `globalFlag` keeps its initial value `false`; and the
returned value never depends on the globals, so they are never read. -/
theorem globals_untouched (g : GlobalState) :
    (mainRun g).1 = g ∧
    (mainRun initialGlobals).1.globalVar = 42 ∧
    (mainRun initialGlobals).1.globalFlag = false ∧
    (mainRun g).2 = (mainRun initialGlobals).2 := by
  refine ⟨rfl, rfl, rfl, rfl⟩

/-- C8: the program is deterministic and side-effect-free: runs from any
two global states return the identical result, the run from the
initialized globals leaves them unchanged, and that result is 16. -/
theorem deterministic_runs (g₁ g₂ : GlobalState) :
    (mainRun g₁).2 = (mainRun g₂).2 ∧
    (mainRun initialGlobals).1 = initialGlobals ∧
    (mainRun initialGlobals).2 = 16 := by
  refine ⟨rfl, rfl, ?_⟩
  simp [mainRun, aAfterLoop_eq]

/-- C9: every value `a` takes in the loop, from the post-conditional value
6 on, is even and between 6 and 16, so the exit value is the least even
number that is at least 15, namely 16. -/
theorem loop_invariant_even_bounded (m : Int) (hm : m % 2 = 0)
    (h15 : 15 ≤ m) :
    ((whileLoopTrace c aAfterIf).all fun x =>
      decide (x % 2 = 0) && decide (6 ≤ x) && decide (x ≤ 16)) = true ∧
    whileLoop c aAfterIf = 16 ∧
    (16 : Int) % 2 = 0 ∧ (15 : Int) ≤ 16 ∧ 16 ≤ m := by
  rw [c_eq, aAfterIf_eq, whileLoopTrace_15_6, whileLoop_15_6]
  refine ⟨by decide, rfl, by decide, by decide, by omega⟩

/-- Witness for C9 at the even number `m = 16`. -/
theorem loop_invariant_even_bounded_witness :
    ((whileLoopTrace c aAfterIf).all fun x =>
      decide (x % 2 = 0) && decide (6 ≤ x) && decide (x ≤ 16)) = true ∧
    whileLoop c aAfterIf = 16 ∧
    (16 : Int) % 2 = 0 ∧ (15 : Int) ≤ 16 ∧ (16 : Int) ≤ 16 :=
  loop_invariant_even_bounded 16 (by decide) (by decide)

/-- Guarded embedding of the C++ `%` operator: modulus by zero is an
error, otherwise the truncating remainder. -/
def modChecked (x y : Int) : Option Int :=
  if y = 0 then none else some (Int.tmod x y)

/-- The value of `e` under the guarded embedding of `%`. -/
def eChecked : Option Int := modChecked a b

/-- The entry routine under the guarded embedding of `%`: it fails
exactly when the modulus on source line 24 divides by zero. -/
def mainRunChecked (g : GlobalState) : Option (GlobalState × Int) :=
  eChecked.bind fun _ => some (mainRun g)

/-- C10: the single modulus `e = a % b` runs with divisor `b = 10 ≠ 0`,
so under the guarded embedding the division-by-zero branch is
unreachable and the checked run always succeeds. -/
theorem modulus_never_by_zero (g : GlobalState) :
    b ≠ 0 ∧ eChecked = some e ∧ eChecked ≠ none ∧
    mainRunChecked g = some (mainRun g) := by
  refine ⟨by decide, by decide, by decide, ?_⟩
  simp [mainRunChecked, eChecked, modChecked, b]

end Input
